import Mathlib

/-!
Verification of the `complete-pic` interrupt-controller library.

The development shallowly embeds the two components of the crate:

* `src/pic8259.rs` — the chained 8259 PIC driver.  Port I/O is made explicit:
  every port write is recorded in a trace, and the hardware-visible state of
  the two chips (their interrupt masks and the progress of the 3-byte
  initialization handshake) is threaded through every operation.  Machine
  `u8` arithmetic is modelled as `Nat` with explicit `% 256`.

* `src/apic/ioapic.rs` — the I/O APIC accessors (`version`, `irqs`, …) are
  embedded as pure functions of a register file, and the `DeliveryMode`
  bit patterns as `Nat` constants.
-/

namespace CompletePic

/-! ### Port and command constants (src/pic8259.rs lines 89–108) -/

/-- The command I/O port of the master PIC. -/
def MASTER_CMD : Nat := 0x20

/-- The data I/O port of the master PIC. -/
def MASTER_DATA : Nat := 0x21

/-- The command I/O port of the slave PIC. -/
def SLAVE_CMD : Nat := 0xA0

/-- The data I/O port of the slave PIC. -/
def SLAVE_DATA : Nat := 0xA1

/-- PIC initialization command (`PIC_INIT` in the source). -/
def PIC_INIT : Nat := 0x11

/-- PIC End of Interrupt command (named `PIC_EIO` in the source). -/
def PIC_EOI : Nat := 0x20

/-- The PIC 8086 mode byte (`PIC_MODE_8086`). -/
def PIC_MODE_8086 : Nat := 0x01

/-- The timing-delay scratch port used by the `wait` closure in
`ChainedPics::initialize` (port `0x80`). -/
def WAIT_PORT : Nat := 0x80

/-! ### Hardware model

The 8259 chips themselves are not code of this crate; their reaction to port
writes is the semantic domain of the embedding, following the protocol the
crate relies on: the initialization command `0x11` announces a 3-byte
handshake on the data port, data-port writes during the handshake are
consumed as handshake bytes, any other data-port write updates the interrupt
mask, and a data-port read returns the mask. -/

/-- Hardware-visible state of a single 8259 chip: its interrupt mask and the
number of outstanding initialization-handshake bytes it still expects. -/
structure PicHw where
  mask : Nat
  pending : Nat
deriving DecidableEq

/-- Hardware-visible state of the pair of chips. -/
structure Hw where
  master : PicHw
  slave : PicHw
deriving DecidableEq

/-- World threaded through every port operation: the chips' hardware state
plus the chronological trace of `(port, value)` writes. -/
structure World where
  hw : Hw
  trace : List (Nat × Nat)
deriving DecidableEq

/-- One chip's reaction to a byte written to its command (`isCmd = true`) or
data port. -/
def hwWriteChip (c : PicHw) (isCmd : Bool) (v : Nat) : PicHw :=
  if isCmd then
    if v = PIC_INIT then { c with pending := 3 } else c
  else
    if c.pending > 0 then { c with pending := c.pending - 1 }
    else { c with mask := v }

/-- Dispatch a port write to the chip owning that port; writes to other ports
(such as the timing port `0x80`) leave the chips unchanged. -/
def hwWrite (h : Hw) (port v : Nat) : Hw :=
  if port = MASTER_CMD then { h with master := hwWriteChip h.master true v }
  else if port = MASTER_DATA then { h with master := hwWriteChip h.master false v }
  else if port = SLAVE_CMD then { h with slave := hwWriteChip h.slave true v }
  else if port = SLAVE_DATA then { h with slave := hwWriteChip h.slave false v }
  else h

/-- Embeds `Port<u8>::write`: record the write in the trace and let the hardware
react.  The value is truncated to a byte. -/
def portWrite (w : World) (port v : Nat) : World :=
  { hw := hwWrite w.hw port (v % 256), trace := w.trace ++ [(port, v % 256)] }

/-- Embeds `Port<u8>::read`: a read of a data port returns the chip's interrupt mask. -/
def portRead (h : Hw) (port : Nat) : Nat :=
  if port = MASTER_DATA then h.master.mask % 256
  else if port = SLAVE_DATA then h.slave.mask % 256
  else 0

/-! ### `Pic` (src/pic8259.rs lines 110–155) -/

/-- An individual PIC chip: vector offset plus command and data port
addresses. -/
structure Pic where
  offset : Nat
  command : Nat
  data : Nat
deriving DecidableEq

/-- Embeds `Pic::new`. -/
def Pic.new (offset command data : Nat) : Pic :=
  { offset := offset, command := command, data := data }

/-- Embeds `Pic::handles_interrupt`: `self.offset <= irq_id && irq_id < self.offset + 8`
with the `+ 8` performed in `u8` arithmetic, hence the explicit `% 256`. -/
def Pic.handles_interrupt (p : Pic) (irq_id : Nat) : Bool :=
  decide (p.offset ≤ irq_id) && decide (irq_id < (p.offset + 8) % 256)

/-- Embeds `Pic::end_of_interrupt`: write the EOI command to the command port. -/
def Pic.end_of_interrupt (p : Pic) (w : World) : World :=
  portWrite w p.command PIC_EOI

/-- Embeds `Pic::read_interrupt_mask`: read the data port. -/
def Pic.read_interrupt_mask (p : Pic) (h : Hw) : Nat :=
  portRead h p.data

/-- Embeds `Pic::write_interrupt_mask`: write the data port. -/
def Pic.write_interrupt_mask (p : Pic) (w : World) (mask : Nat) : World :=
  portWrite w p.data mask

/-! ### `ChainedPics` (src/pic8259.rs lines 157–282) -/

/-- The two 8259 PICs chained together (`pics: [Pic; 2]`; `pics0` is
`pics[0]`, the master, and `pics1` is `pics[1]`, the slave). -/
structure ChainedPics where
  pics0 : Pic
  pics1 : Pic
deriving DecidableEq

/-- Embeds `ChainedPics::new`: master at ports `0x20`/`0x21`, slave at
`0xA0`/`0xA1`. -/
def ChainedPics.new (master_offset slave_offset : Nat) : ChainedPics :=
  { pics0 := Pic.new master_offset MASTER_CMD MASTER_DATA
    pics1 := Pic.new slave_offset SLAVE_CMD SLAVE_DATA }

/-- Embeds `ChainedPics::read_interrupt_masks`. -/
def ChainedPics.read_interrupt_masks (cp : ChainedPics) (h : Hw) : List Nat :=
  [cp.pics0.read_interrupt_mask h, cp.pics1.read_interrupt_mask h]

/-- Embeds `ChainedPics::write_interrupt_masks`: master mask first, then slave
mask. -/
def ChainedPics.write_interrupt_masks (cp : ChainedPics) (w : World)
    (master_mask slave_mask : Nat) : World :=
  cp.pics1.write_interrupt_mask (cp.pics0.write_interrupt_mask w master_mask) slave_mask

/-- The `wait` closure of `ChainedPics::initialize`: a throwaway write of `0`
to port `0x80`. -/
def waitWrite (w : World) : World :=
  portWrite w WAIT_PORT 0

/-- Embeds `ChainedPics::initialize` line by line: save the masks, send the
initialization command to each chip, then the three handshake bytes (offset,
chaining byte, mode byte) in master-then-slave order with a delay write after
every chip write, and finally restore the saved masks. -/
def ChainedPics.initSeq (cp : ChainedPics) (w : World) : World :=
  let saved := cp.read_interrupt_masks w.hw
  let w := portWrite w cp.pics0.command PIC_INIT
  let w := waitWrite w
  let w := portWrite w cp.pics1.command PIC_INIT
  let w := waitWrite w
  let w := portWrite w cp.pics0.data cp.pics0.offset
  let w := waitWrite w
  let w := portWrite w cp.pics1.data cp.pics1.offset
  let w := waitWrite w
  let w := portWrite w cp.pics0.data 4
  let w := waitWrite w
  let w := portWrite w cp.pics1.data 2
  let w := waitWrite w
  let w := portWrite w cp.pics0.data PIC_MODE_8086
  let w := waitWrite w
  let w := portWrite w cp.pics1.data PIC_MODE_8086
  let w := waitWrite w
  cp.write_interrupt_masks w (saved.getD 0 0) (saved.getD 1 0)

/-- Embeds `ChainedPics::disable`: mask everything on both chips. -/
def ChainedPics.disable (cp : ChainedPics) (w : World) : World :=
  cp.write_interrupt_masks w 255 255

/-- Embeds `ChainedPics::handles_interrupt`: `self.pics.iter().any(...)` over the
two chips. -/
def ChainedPics.handles_interrupt (cp : ChainedPics) (irq_id : Nat) : Bool :=
  cp.pics0.handles_interrupt irq_id || cp.pics1.handles_interrupt irq_id

/-- Embeds `ChainedPics::notify_end_of_interrupt`. -/
def ChainedPics.notify_end_of_interrupt (cp : ChainedPics) (irq_id : Nat)
    (w : World) : World :=
  if cp.handles_interrupt irq_id then
    let w := if cp.pics1.handles_interrupt irq_id then cp.pics1.end_of_interrupt w else w
    cp.pics0.end_of_interrupt w
  else w

/-- Embeds `ChainedPics::restore`: set the offsets back to `0x00` and `0x08`.  The
source body is two field assignments and touches no port; the `World` is
threaded unchanged to make that frame property statable. -/
def ChainedPics.restore (cp : ChainedPics) (w : World) : ChainedPics × World :=
  ({ cp with pics0 := { cp.pics0 with offset := 0x00 }
             pics1 := { cp.pics1 with offset := 0x08 } }, w)

/-! ### I/O APIC (src/apic/ioapic.rs) -/

/-- I/O APIC ID register index. -/
def IA_ID_REG : Nat := 0x00

/-- I/O APIC version register index. -/
def IA_VER_REG : Nat := 0x01

/-- I/O APIC arbitration register index. -/
def IA_ARB_REG : Nat := 0x02

/-- Base of the redirection table. -/
def RDT_BASE : Nat := 0x10

/-- Embeds `bit_field::BitField::get_bits(lo..hi)` on a value: the half-open bit
range `[lo, hi)`. -/
def getBits (v lo hi : Nat) : Nat :=
  (v >>> lo) % 2 ^ (hi - lo)

/-- The I/O APIC's indexed register bank, as read through
`read_reg`: a 32-bit value per register index. -/
structure IoApicRegs where
  regs : Nat → Nat

/-- Embeds `IoApic::read_reg reg`: select `reg` (a `u8`) and read the 32-bit data
register. -/
def IoApic.read_reg (r : IoApicRegs) (reg : Nat) : Nat :=
  r.regs (reg % 256) % 2 ^ 32

/-- Embeds `IoApic::id`: bits 24–27 of the ID register, cast to `u8`. -/
def IoApic.id (r : IoApicRegs) : Nat :=
  getBits (IoApic.read_reg r IA_ID_REG) 24 28 % 256

/-- Embeds `IoApic::version`: `read_reg(IA_VER_REG).get_bits(0..9) as u8` — a 9-bit
field truncated to a byte. -/
def IoApic.version (r : IoApicRegs) : Nat :=
  getBits (IoApic.read_reg r IA_VER_REG) 0 9 % 256

/-- Embeds `IoApic::irqs`: `read_reg(IA_VER_REG).get_bits(16..24) as u8`.  Note the
source returns the field directly, with no `+ 1`. -/
def IoApic.irqs (r : IoApicRegs) : Nat :=
  getBits (IoApic.read_reg r IA_VER_REG) 16 24 % 256

/-- Embeds `IoApic::arbitration_id`: bits 24–27 of the arbitration register. -/
def IoApic.arbitration_id (r : IoApicRegs) : Nat :=
  getBits (IoApic.read_reg r IA_ARB_REG) 24 28 % 256

/-- What `IoApic::new` actually constructs.  The source builds
`VolatileRef::new(NonNull::from(&(base_addr as u32)))` and
`VolatileRef::new(NonNull::from(&((base_addr + 0x10) as u32)))`: each
`NonNull::from(&e)` takes the address of a fresh stack temporary holding the
numeric value of `e`, so the two pointers point at those temporaries, not at
`base_addr` and `base_addr + 0x10`.  The record keeps both the address each
pointer refers to and the value stored there at construction. -/
structure IoApicPtrs where
  reg_sel_addr : Nat
  reg_sel_val : Nat
  data_addr : Nat
  data_val : Nat
deriving DecidableEq

/-- Embeds `IoApic::new base_addr`, with `tmp_sel` and `tmp_data` the stack
addresses of the two temporaries created by the `&(… as u32)` expressions
(they are fresh locals, determined by the stack frame, never by
`base_addr`). -/
def IoApic.new (base_addr tmp_sel tmp_data : Nat) : IoApicPtrs :=
  { reg_sel_addr := tmp_sel
    reg_sel_val := base_addr % 2 ^ 32
    data_addr := tmp_data
    data_val := (base_addr + 0x10) % 2 ^ 32 }

/-! ### `DeliveryMode` (src/apic/ioapic.rs lines 18–29)

The source declares the delivery modes with `bitflags!`; the named constants
are these bit patterns. -/

/-- Embeds `DeliveryMode::FIXED = 1 << 0`. -/
def DeliveryMode.FIXED : Nat := 1 <<< 0

/-- Embeds `DeliveryMode::LOW_PRIORITY = 1 << 1`. -/
def DeliveryMode.LOW_PRIORITY : Nat := 1 <<< 1

/-- Embeds `DeliveryMode::SMI = 1 << 2`. -/
def DeliveryMode.SMI : Nat := 1 <<< 2

/-- Embeds `DeliveryMode::NMI = 1 << 3`. -/
def DeliveryMode.NMI : Nat := 1 <<< 3

/-- Embeds `DeliveryMode::INIT = 0b101`. -/
def DeliveryMode.INIT : Nat := 0b101

/-- Embeds `DeliveryMode::EXTINIT = 0b111`. -/
def DeliveryMode.EXTINIT : Nat := 0b111

/-! ### Shared lemmas -/

/-- Projection: the command port stored by `Pic::new`. -/
theorem Pic.new_command (o c d : Nat) : (Pic.new o c d).command = c := rfl

/-- Projection: the data port stored by `Pic::new`. -/
theorem Pic.new_data (o c d : Nat) : (Pic.new o c d).data = d := rfl

/-- Projection: the offset stored by `Pic::new`. -/
theorem Pic.new_offset (o c d : Nat) : (Pic.new o c d).offset = o := rfl

/-- For an offset that stays at most `247`, the `u8` addition `offset + 8`
does not wrap, and `Pic::handles_interrupt` decides exactly the interval
`[offset, offset + 8)`. -/
theorem pic_handles_eq (o c d id : Nat) (h : o ≤ 247) :
    (Pic.new o c d).handles_interrupt id = decide (o ≤ id ∧ id < o + 8) := by
  have e : (o + 8) % 256 = o + 8 := Nat.mod_eq_of_lt (by omega)
  simp [Pic.handles_interrupt, Pic.new, e, Bool.decide_and]

/-! ### Claims -/

/-- C8: for every `ChainedPics` state and world, after `restore()` the
primary chip's offset is `0` and the secondary chip's offset is `8`,
regardless of their prior values. -/
theorem C8_restore_offsets (cp : ChainedPics) (w : World) :
    ((cp.restore w).1.pics0.offset = 0) ∧ ((cp.restore w).1.pics1.offset = 8) :=
  ⟨rfl, rfl⟩

/-- C10: `restore()` modifies only the two stored offset fields: it performs
no port I/O (the world — hardware masks and write trace — is returned
unchanged) and the chips' port addresses are untouched. -/
theorem C10_restore_frame (cp : ChainedPics) (w : World) :
    (cp.restore w).2 = w ∧
    (cp.restore w).2.trace = w.trace ∧
    (cp.restore w).2.hw = w.hw ∧
    (cp.restore w).1.pics0.command = cp.pics0.command ∧
    (cp.restore w).1.pics0.data = cp.pics0.data ∧
    (cp.restore w).1.pics1.command = cp.pics1.command ∧
    (cp.restore w).1.pics1.data = cp.pics1.data :=
  ⟨rfl, rfl, rfl, rfl, rfl, rfl, rfl⟩

/-- C9: for a chip offset of at most `247` the computation `offset + 8`
inside `handles_interrupt` does not overflow `u8` (the `% 256` reduction is
the identity) and `handles_interrupt` decides the true interval; for offsets
above `247` the addition wraps. -/
theorem C9_offset_overflow (o c d id : Nat) (ho : o < 256) :
    (o ≤ 247 → (o + 8) % 256 = o + 8 ∧
      (Pic.new o c d).handles_interrupt id = decide (o ≤ id ∧ id < o + 8)) ∧
    (247 < o → (o + 8) % 256 ≠ o + 8) := by
  constructor
  · intro h
    exact ⟨Nat.mod_eq_of_lt (by omega), pic_handles_eq o c d id h⟩
  · intro h
    omega

/-- Witness for C9 at offset `32`, ports `0x20`/`0x21`, irq `35`. -/
theorem C9_offset_overflow_witness :
    (32 < 256) ∧
    ((32 ≤ 247 → (32 + 8) % 256 = 32 + 8 ∧
      (Pic.new 32 0x20 0x21).handles_interrupt 35 = decide (32 ≤ 35 ∧ 35 < 32 + 8)) ∧
     (247 < 32 → (32 + 8) % 256 ≠ 32 + 8)) :=
  ⟨by decide, C9_offset_overflow 32 0x20 0x21 35 (by decide)⟩

/-- C5: the six named `DeliveryMode` bit patterns are pairwise distinct, but
`NMI = 1 << 3 = 8` does not fit in a 3-bit field, contradicting the
declaration's own description of a field occupying bits 8 to 10 (the other
five values do fit). -/
theorem C5_delivery_mode_eval :
    DeliveryMode.NMI = 8 ∧ ¬ (DeliveryMode.NMI < 8) ∧
    [DeliveryMode.FIXED, DeliveryMode.LOW_PRIORITY, DeliveryMode.SMI,
      DeliveryMode.NMI, DeliveryMode.INIT, DeliveryMode.EXTINIT].Nodup ∧
    DeliveryMode.FIXED < 8 ∧ DeliveryMode.LOW_PRIORITY < 8 ∧
    DeliveryMode.SMI < 8 ∧ DeliveryMode.INIT < 8 ∧ DeliveryMode.EXTINIT < 8 := by
  decide

/-- C7: evaluated at base address `0xFEC00000` (with the two stack
temporaries at `0x7000` and `0x7010`), the constructed handle's select
pointer refers to the temporary's address, not to the base address, and the
data pointer refers to the other temporary, not to base `+ 0x10`; the
temporaries merely contain the numeric values `base` and `base + 0x10`. -/
theorem C7_new_points_at_temporaries :
    (IoApic.new 0xFEC00000 0x7000 0x7010).reg_sel_addr = 0x7000 ∧
    0x7000 ≠ 0xFEC00000 ∧
    (IoApic.new 0xFEC00000 0x7000 0x7010).data_addr = 0x7010 ∧
    0x7010 ≠ 0xFEC00000 + 0x10 ∧
    (IoApic.new 0xFEC00000 0x7000 0x7010).reg_sel_val = 0xFEC00000 ∧
    (IoApic.new 0xFEC00000 0x7000 0x7010).data_val = 0xFEC00000 + 0x10 := by
  decide

/-- C4 fails as stated: with offsets `(32, 250)` the irq `251` lies in the
secondary interval `[250, 258)` computed with mathematical arithmetic, yet
`handles_interrupt` returns `false`, because the `u8` addition `250 + 8`
wraps to `2`. -/
theorem C4_counterexample :
    (ChainedPics.new 32 250).handles_interrupt 251 = false ∧
    (250 ≤ 251 ∧ 251 < 250 + 8) ∧ ¬ (32 ≤ 251 ∧ 251 < 32 + 8) := by
  decide

/-- C4 (amended): provided both offsets are at most `247` (so that
`offset + 8` does not overflow `u8`), `handles_interrupt(irq_id)` returns
`true` iff `primary.offset ≤ irq_id < primary.offset + 8` or
`secondary.offset ≤ irq_id < secondary.offset + 8`; the function is pure (it
takes no world and can emit no port write). -/
theorem C4_handles_iff (o0 o1 id : Nat) (h0 : o0 ≤ 247) (h1 : o1 ≤ 247) :
    (ChainedPics.new o0 o1).handles_interrupt id = true ↔
      (o0 ≤ id ∧ id < o0 + 8) ∨ (o1 ≤ id ∧ id < o1 + 8) := by
  simp [ChainedPics.handles_interrupt, ChainedPics.new,
        pic_handles_eq o0 MASTER_CMD MASTER_DATA id h0,
        pic_handles_eq o1 SLAVE_CMD SLAVE_DATA id h1]

/-- Witness for C4 at the spec's own scenario `ChainedPics::new(32, 40)`,
irq `44` (a secondary-range vector). -/
theorem C4_handles_iff_witness :
    (32 ≤ 247 ∧ 40 ≤ 247) ∧
    ((ChainedPics.new 32 40).handles_interrupt 44 = true ↔
      (32 ≤ 44 ∧ 44 < 32 + 8) ∨ (40 ≤ 44 ∧ 44 < 40 + 8)) :=
  ⟨by decide, C4_handles_iff 32 40 44 (by decide) (by decide)⟩

/-- C1 fails as stated: with offsets `(32, 250)` the irq `251` lies in the
secondary chip's interval `[250, 258)` in mathematical arithmetic, so the
claim requires an EOI to both chips, yet `notify_end_of_interrupt` issues no
command at all — the wrapped `u8` bound makes `handles_interrupt` false. -/
theorem C1_counterexample :
    ((ChainedPics.new 32 250).notify_end_of_interrupt 251
        { hw := { master := { mask := 0, pending := 0 },
                  slave := { mask := 0, pending := 0 } }, trace := [] }).trace = [] ∧
    (250 ≤ 251 ∧ 251 < 250 + 8) := by
  decide

/-- C1 (amended): provided both offsets are at most `247`, for every irq id:
if it lies in the secondary interval the EOI command `0x20` is written to
the secondary command port and then to the primary command port; if it lies
only in the primary interval, to the primary command port alone; if in
neither, no port write is issued. -/
theorem C1_eoi_cases (o0 o1 id : Nat) (w : World) (h0 : o0 ≤ 247) (h1 : o1 ≤ 247) :
    ((o1 ≤ id ∧ id < o1 + 8) →
      ((ChainedPics.new o0 o1).notify_end_of_interrupt id w).trace
        = w.trace ++ [(SLAVE_CMD, PIC_EOI), (MASTER_CMD, PIC_EOI)]) ∧
    ((o0 ≤ id ∧ id < o0 + 8) → ¬ (o1 ≤ id ∧ id < o1 + 8) →
      ((ChainedPics.new o0 o1).notify_end_of_interrupt id w).trace
        = w.trace ++ [(MASTER_CMD, PIC_EOI)]) ∧
    (¬ (o0 ≤ id ∧ id < o0 + 8) → ¬ (o1 ≤ id ∧ id < o1 + 8) →
      ((ChainedPics.new o0 o1).notify_end_of_interrupt id w).trace = w.trace) := by
  have e0 := pic_handles_eq o0 MASTER_CMD MASTER_DATA id h0
  have e1 := pic_handles_eq o1 SLAVE_CMD SLAVE_DATA id h1
  have hEOI : PIC_EOI % 256 = PIC_EOI := by decide
  refine ⟨?_, ?_, ?_⟩
  · intro h
    simp [ChainedPics.notify_end_of_interrupt, ChainedPics.handles_interrupt,
          ChainedPics.new, e0, e1, h, Pic.end_of_interrupt, portWrite,
          Pic.new_command, hEOI]
  · intro hp hn
    simp [ChainedPics.notify_end_of_interrupt, ChainedPics.handles_interrupt,
          ChainedPics.new, e0, e1, hp, hn, Pic.end_of_interrupt, portWrite,
          Pic.new_command, hEOI]
  · intro hp hn
    simp [ChainedPics.notify_end_of_interrupt, ChainedPics.handles_interrupt,
          ChainedPics.new, e0, e1, hp, hn]

/-- Witness for C1 at `ChainedPics::new(32, 40)`, irq `44` (secondary
range), starting from the empty world. -/
theorem C1_eoi_cases_witness :
    (32 ≤ 247 ∧ 40 ≤ 247) ∧
    ((40 ≤ 44 ∧ 44 < 40 + 8) →
      ((ChainedPics.new 32 40).notify_end_of_interrupt 44
          { hw := { master := { mask := 0, pending := 0 },
                    slave := { mask := 0, pending := 0 } }, trace := [] }).trace
        = [] ++ [(SLAVE_CMD, PIC_EOI), (MASTER_CMD, PIC_EOI)]) :=
  ⟨by decide,
   (C1_eoi_cases 32 40 44
      { hw := { master := { mask := 0, pending := 0 },
                slave := { mask := 0, pending := 0 } }, trace := [] }
      (by decide) (by decide)).1⟩

/-- C2 fails as stated: running `initialize` on `ChainedPics::new(32, 40)`
with pre-set masks `0xAB`/`0xCD` emits the claimed sixteen writes *followed
by two further writes* — the saved masks going back to the two data ports,
with no delay write after them — so the emitted sequence is not exactly the
sixteen-write sequence the claim describes. -/
theorem C2_counterexample :
    ((ChainedPics.new 32 40).initSeq
        { hw := { master := { mask := 0xAB, pending := 0 },
                  slave := { mask := 0xCD, pending := 0 } }, trace := [] }).trace
      = [(0x20, 0x11), (0x80, 0), (0xA0, 0x11), (0x80, 0),
         (0x21, 32), (0x80, 0), (0xA1, 40), (0x80, 0),
         (0x21, 4), (0x80, 0), (0xA1, 2), (0x80, 0),
         (0x21, 0x01), (0x80, 0), (0xA1, 0x01), (0x80, 0),
         (0x21, 0xAB), (0xA1, 0xCD)] ∧
    [(0x20, 0x11), (0x80, 0), (0xA0, 0x11), (0x80, 0),
     (0x21, 32), (0x80, 0), (0xA1, 40), (0x80, 0),
     (0x21, 4), (0x80, 0), (0xA1, 2), (0x80, 0),
     (0x21, 0x01), (0x80, 0), (0xA1, 0x01), (0x80, 0),
     (0x21, 0xAB), (0xA1, 0xCD)]
      ≠ [((0x20 : Nat), (0x11 : Nat)), (0x80, 0), (0xA0, 0x11), (0x80, 0),
         (0x21, 32), (0x80, 0), (0xA1, 40), (0x80, 0),
         (0x21, 4), (0x80, 0), (0xA1, 2), (0x80, 0),
         (0x21, 0x01), (0x80, 0), (0xA1, 0x01), (0x80, 0)] := by
  decide

/-- C2 (amended): for every pair of offsets, pre-set masks and starting
trace, `initialize` emits exactly: the command `0x11` to the primary then
the secondary command port, then the three handshake bytes (offset byte,
chaining byte `4`/`2`, mode byte `0x01`) each written to the primary then
the secondary chip before the next byte, with a delay write `(0x80, 0)`
after each of those eight chip writes, and finally the two saved masks
written back to the primary then the secondary data port with no delay
writes after them. -/
theorem C2_init_trace (o0 o1 m0 m1 p0 p1 : Nat) (t : List (Nat × Nat))
    (h0 : o0 < 256) (h1 : o1 < 256) (hm0 : m0 < 256) (hm1 : m1 < 256) :
    ((ChainedPics.new o0 o1).initSeq
        { hw := { master := { mask := m0, pending := p0 },
                  slave := { mask := m1, pending := p1 } }, trace := t }).trace
      = t ++ [(MASTER_CMD, PIC_INIT), (WAIT_PORT, 0), (SLAVE_CMD, PIC_INIT), (WAIT_PORT, 0),
              (MASTER_DATA, o0), (WAIT_PORT, 0), (SLAVE_DATA, o1), (WAIT_PORT, 0),
              (MASTER_DATA, 4), (WAIT_PORT, 0), (SLAVE_DATA, 2), (WAIT_PORT, 0),
              (MASTER_DATA, PIC_MODE_8086), (WAIT_PORT, 0),
              (SLAVE_DATA, PIC_MODE_8086), (WAIT_PORT, 0),
              (MASTER_DATA, m0), (SLAVE_DATA, m1)] := by
  have hINIT : PIC_INIT % 256 = PIC_INIT := by decide
  have hMODE : PIC_MODE_8086 % 256 = PIC_MODE_8086 := by decide
  simp [ChainedPics.initSeq, ChainedPics.new, ChainedPics.read_interrupt_masks,
        ChainedPics.write_interrupt_masks, Pic.read_interrupt_mask,
        Pic.write_interrupt_mask, Pic.new_command, Pic.new_data, Pic.new_offset,
        portWrite, portRead, waitWrite, hwWrite, hwWriteChip,
        Nat.mod_eq_of_lt h0, Nat.mod_eq_of_lt h1,
        Nat.mod_eq_of_lt hm0, Nat.mod_eq_of_lt hm1,
        hINIT, hMODE, MASTER_CMD, MASTER_DATA, SLAVE_CMD, SLAVE_DATA, WAIT_PORT]

/-- Witness for C2 (amended) at offsets `(32, 40)`, masks `(0xAB, 0xCD)`,
empty starting trace. -/
theorem C2_init_trace_witness :
    (32 < 256 ∧ 40 < 256 ∧ 0xAB < 256 ∧ 0xCD < 256) ∧
    ((ChainedPics.new 32 40).initSeq
        { hw := { master := { mask := 0xAB, pending := 0 },
                  slave := { mask := 0xCD, pending := 0 } }, trace := [] }).trace
      = [] ++ [(MASTER_CMD, PIC_INIT), (WAIT_PORT, 0), (SLAVE_CMD, PIC_INIT), (WAIT_PORT, 0),
               (MASTER_DATA, 32), (WAIT_PORT, 0), (SLAVE_DATA, 40), (WAIT_PORT, 0),
               (MASTER_DATA, 4), (WAIT_PORT, 0), (SLAVE_DATA, 2), (WAIT_PORT, 0),
               (MASTER_DATA, PIC_MODE_8086), (WAIT_PORT, 0),
               (SLAVE_DATA, PIC_MODE_8086), (WAIT_PORT, 0),
               (MASTER_DATA, 0xAB), (SLAVE_DATA, 0xCD)] :=
  ⟨by decide,
   C2_init_trace 32 40 0xAB 0xCD 0 0 []
     (by decide) (by decide) (by decide) (by decide)⟩

/-- C3: for every pair of mask bytes present on the two chips before the
call (and any offsets, handshake progress and starting trace), running
`initialize` and then `read_interrupt_masks` returns exactly that
pre-existing mask pair: the handshake's data-port writes are consumed as
initialization bytes by the chips, and the final two writes restore the
masks saved at the start. -/
theorem C3_mask_roundtrip (o0 o1 m0 m1 p0 p1 : Nat) (t : List (Nat × Nat))
    (hm0 : m0 < 256) (hm1 : m1 < 256) :
    (ChainedPics.new o0 o1).read_interrupt_masks
        ((ChainedPics.new o0 o1).initSeq
          { hw := { master := { mask := m0, pending := p0 },
                    slave := { mask := m1, pending := p1 } }, trace := t }).hw
      = [m0, m1] := by
  simp [ChainedPics.initSeq, ChainedPics.new, ChainedPics.read_interrupt_masks,
        ChainedPics.write_interrupt_masks, Pic.read_interrupt_mask,
        Pic.write_interrupt_mask, Pic.new_command, Pic.new_data, Pic.new_offset,
        portWrite, portRead, waitWrite, hwWrite, hwWriteChip,
        Nat.mod_eq_of_lt hm0, Nat.mod_eq_of_lt hm1,
        MASTER_CMD, MASTER_DATA, SLAVE_CMD, SLAVE_DATA, WAIT_PORT, PIC_INIT]

/-- Witness for C3 at offsets `(32, 40)`, masks `(0xAB, 0xCD)`. -/
theorem C3_mask_roundtrip_witness :
    (0xAB < 256 ∧ 0xCD < 256) ∧
    (ChainedPics.new 32 40).read_interrupt_masks
        ((ChainedPics.new 32 40).initSeq
          { hw := { master := { mask := 0xAB, pending := 0 },
                    slave := { mask := 0xCD, pending := 0 } }, trace := [] }).hw
      = [0xAB, 0xCD] :=
  ⟨by decide, C3_mask_roundtrip 32 40 0xAB 0xCD 0 0 [] (by decide) (by decide)⟩

/-- C6 fails as stated: with the version register holding `0x0017_0111`, the
bits 0–8 field is `0x111`, yet `version()` returns `0x11` (the `as u8` cast
truncates the 9-bit field), and `irqs()` returns the raw bits 16–23 field
`0x17`, not `0x17 + 1 = 0x18` as the claim requires — likewise at the
claim's own example `0x0017_0011`. -/
theorem C6_counterexample :
    getBits 0x00170111 0 9 = 0x111 ∧
    IoApic.version { regs := fun _ => 0x00170111 } = 0x11 ∧ (0x11 : Nat) ≠ 0x111 ∧
    IoApic.irqs { regs := fun _ => 0x00170111 } = 0x17 ∧ (0x17 : Nat) ≠ 0x17 + 1 ∧
    IoApic.irqs { regs := fun _ => 0x00170011 } = 0x17 := by
  refine ⟨by decide, by decide, by decide, by decide, by decide, by decide⟩

/-- C6 (amended): for every 32-bit value `v` held in the version register
(index `0x01`), `version()` returns the 9-bit field of bits 0–8 truncated to
a byte — that is, bits 0–7 of `v` — and `irqs()` returns the bits 16–23
field directly, with no plus-one; in particular for `v = 0x0017_0011`,
`version()` is `0x11` and `irqs()` is `0x17`. -/
theorem C6_version_irqs (r : IoApicRegs) (v : Nat) (hv : r.regs 1 = v)
    (h32 : v < 2 ^ 32) :
    IoApic.version r = v % 256 ∧ IoApic.irqs r = v / 65536 % 256 := by
  have hr : IoApic.read_reg r IA_VER_REG = v := by
    simp [IoApic.read_reg, IA_VER_REG, hv]
    omega
  constructor
  · simp only [IoApic.version, hr, getBits, Nat.shiftRight_zero]
    omega
  · simp only [IoApic.irqs, hr, getBits, Nat.shiftRight_eq_div_pow]
    omega

/-- Witness for C6 (amended) at the spec's concrete value `0x0017_0011`. -/
theorem C6_version_irqs_witness :
    (({ regs := fun _ => 0x00170011 } : IoApicRegs).regs 1 = 0x00170011 ∧
      0x00170011 < 2 ^ 32) ∧
    (IoApic.version { regs := fun _ => 0x00170011 } = 0x00170011 % 256 ∧
      IoApic.irqs { regs := fun _ => 0x00170011 } = 0x00170011 / 65536 % 256) :=
  ⟨⟨rfl, by decide⟩,
   C6_version_irqs { regs := fun _ => 0x00170011 } 0x00170011 rfl (by decide)⟩

end CompletePic
